import Mathlib

/- Verification of the ZKredit arithmetic circuits (income, credit-history,
   collateral and Merkle-membership circom templates) and of the Solidity
   verifier/registry contracts (Verifier.sol, ZKCreditVerifier.sol), via a
   shallow embedding.  Circuit signals are modelled as natural numbers; the
   circomlib comparator gadgets (GreaterEqThan/LessEqThan/LessThan at 252 bits)
   are modelled as integer comparisons, which is faithful for all values below
   2^252.  Where the circuits use genuine field arithmetic (field division,
   the IsBinary polynomial), the BN254 scalar-field modulus is used explicitly. -/

/-- The BN254 scalar-field prime, circom's default modulus. -/
def fieldPrime : Nat :=
  21888242871839275222246405745257275088548364400416034343698204186575808495617

/-- circomlib GreaterEqThan gadget output: 1 iff the first input is >= the second. -/
def greaterEqThan (a b : Nat) : Nat := if b ≤ a then 1 else 0

/-- circomlib LessEqThan gadget output: 1 iff the first input is <= the second. -/
def lessEqThan (a b : Nat) : Nat := if a ≤ b then 1 else 0

/-- circomlib LessThan gadget output: 1 iff the first input is < the second. -/
def lessThan (a b : Nat) : Nat := if a < b then 1 else 0

/-- circomlib IsZero gadget output: 1 iff the input is 0. -/
def isZeroOut (a : Nat) : Nat := if a = 0 then 1 else 0

theorem greaterEqThan_eq_one (a b : Nat) : greaterEqThan a b = 1 ↔ b ≤ a := by
  unfold greaterEqThan; split <;> simp_all

theorem lessEqThan_eq_one (a b : Nat) : lessEqThan a b = 1 ↔ a ≤ b := by
  unfold lessEqThan; split <;> simp_all

theorem isZeroOut_eq_one (a : Nat) : isZeroOut a = 1 ↔ a = 0 := by
  unfold isZeroOut; split <;> simp_all

/-! ## IncomeVerifier (income_verifier.circom) -/

/-- The signals of one IncomeVerifier instance: public minIncome and maxIncome,
    private actualIncome. -/
structure IncomeInputs where
  minIncome : Nat
  maxIncome : Nat
  actualIncome : Nat

/-- The constraint system of IncomeVerifier: actualIncome in [minIncome, maxIncome],
    minIncome <= maxIncome, and the three non-negativity checks. -/
def incomeConstraints (i : IncomeInputs) : Prop :=
  greaterEqThan i.actualIncome i.minIncome = 1 ∧
  lessEqThan i.actualIncome i.maxIncome = 1 ∧
  lessEqThan i.minIncome i.maxIncome = 1 ∧
  greaterEqThan i.actualIncome 0 = 1 ∧
  greaterEqThan i.minIncome 0 = 1 ∧
  greaterEqThan i.maxIncome 0 = 1

instance (i : IncomeInputs) : Decidable (incomeConstraints i) := by
  unfold incomeConstraints; exact inferInstance

/-- The circuit's output commitment, assigned by commitment <== actualIncome. -/
def incomeCommitment (i : IncomeInputs) : Nat := i.actualIncome

/-- The public signal vector of an IncomeVerifier proof: the output commitment
    followed by the public inputs minIncome and maxIncome. -/
def incomePublicSignals (i : IncomeInputs) : List Nat :=
  [incomeCommitment i, i.minIncome, i.maxIncome]

/-- C1: for the scenario minIncome=15000, maxIncome=80000, actualIncome=45000 the
    circuit's constraints are satisfied (so proof generation succeeds), but the
    public signal vector CONTAINS the private value 45000, because the circuit
    assigns commitment <== actualIncome.  This refutes the claim that no public
    signal equals the private income, and contradicts the circuit's own comments
    ("without revealing the exact income amount", "commitment to the actual
    income (hash)"). -/
theorem C1_income_commitment_leaks_private_value :
    incomeConstraints ⟨15000, 80000, 45000⟩ ∧
    45000 ∈ incomePublicSignals ⟨15000, 80000, 45000⟩ := by
  decide

/-! ## CreditHistoryVerifier (credit_history_verifier.circom) -/

/-- The signals of one CreditHistoryVerifier instance: public creditScoreMin,
    creditScoreMax and minHistoryLength, private creditScore, historyLength,
    defaultCount and recentLatePayments. -/
structure CreditInputs where
  creditScoreMin : Nat
  creditScoreMax : Nat
  minHistoryLength : Nat
  creditScore : Nat
  historyLength : Nat
  defaultCount : Nat
  recentLatePayments : Nat

/-- The constraint system of CreditHistoryVerifier: score range, history length,
    zero defaults, at most 3 recent late payments, and the 0..850 score bounds. -/
def creditConstraints (c : CreditInputs) : Prop :=
  greaterEqThan c.creditScore c.creditScoreMin = 1 ∧
  lessEqThan c.creditScore c.creditScoreMax = 1 ∧
  greaterEqThan c.historyLength c.minHistoryLength = 1 ∧
  isZeroOut c.defaultCount = 1 ∧
  lessEqThan c.recentLatePayments 3 = 1 ∧
  greaterEqThan c.creditScore 0 = 1 ∧
  greaterEqThan c.historyLength 0 = 1 ∧
  lessEqThan c.creditScore 850 = 1

instance (c : CreditInputs) : Decidable (creditConstraints c) := by
  unfold creditConstraints; exact inferInstance

/-- The circuit's output isEligible, assigned by the constant isEligible <== 1. -/
def isEligible (_c : CreditInputs) : Nat := 1

/-- The AND (product) of the eligibility check bits, as the spec phrases the
    output. -/
def creditChecksAnd (c : CreditInputs) : Nat :=
  greaterEqThan c.creditScore c.creditScoreMin *
  lessEqThan c.creditScore c.creditScoreMax *
  greaterEqThan c.historyLength c.minHistoryLength *
  isZeroOut c.defaultCount *
  lessEqThan c.recentLatePayments 3 *
  lessEqThan c.creditScore 850

/-- C5: over every witness of the circuit, i.e. every assignment satisfying its
    constraints, isEligible equals the boolean AND of all eligibility checks,
    equals 1 exactly when all checks pass, and takes only the values 0 or 1. -/
theorem C5_isEligible_and_of_checks (c : CreditInputs) (h : creditConstraints c) :
    isEligible c = creditChecksAnd c ∧
    (isEligible c = 1 ↔
      (c.creditScoreMin ≤ c.creditScore ∧ c.creditScore ≤ c.creditScoreMax ∧
       c.minHistoryLength ≤ c.historyLength ∧ c.defaultCount = 0 ∧
       c.recentLatePayments ≤ 3 ∧ c.creditScore ≤ 850)) ∧
    (isEligible c = 0 ∨ isEligible c = 1) := by
  obtain ⟨h1, h2, h3, h4, h5, h6, h7, h8⟩ := h
  refine ⟨?_, ?_, Or.inr rfl⟩
  · simp [isEligible, creditChecksAnd, h1, h2, h3, h4, h5, h8]
  · constructor
    · intro _
      exact ⟨(greaterEqThan_eq_one _ _).mp h1, (lessEqThan_eq_one _ _).mp h2,
        (greaterEqThan_eq_one _ _).mp h3, (isZeroOut_eq_one _).mp h4,
        (lessEqThan_eq_one _ _).mp h5, (lessEqThan_eq_one _ _).mp h8⟩
    · intro _
      rfl

/-- Concrete instantiation of C5 at the satisfying witness creditScore=700,
    range [700, 850], historyLength=24 >= 12, no defaults, 2 late payments. -/
theorem C5_isEligible_witness :
    isEligible ⟨700, 850, 12, 700, 24, 0, 2⟩ =
      creditChecksAnd ⟨700, 850, 12, 700, 24, 0, 2⟩ :=
  (C5_isEligible_and_of_checks ⟨700, 850, 12, 700, 24, 0, 2⟩ (by decide)).1

/-- MultiDivision from the credit circuit: remainder <== (dividend * ratio) / divisor
    is FIELD division over the BN254 scalar field, compiled to the constraint
    remainder * divisor === dividend * ratio (mod fieldPrime). -/
def multiDivisionRel (dividend divisor ratio remainder : Nat) : Prop :=
  remainder < fieldPrime ∧
  (remainder * divisor) % fieldPrime = (dividend * ratio) % fieldPrime

instance (d v r m : Nat) : Decidable (multiDivisionRel d v r m) := by
  unfold multiDivisionRel; exact inferInstance

/-- C6: with creditScore = 700 the circuit's creditRating is NOT the truncating
    quotient 700 * 100 / 850 = 82: the field-division constraint is satisfied by
    the field element 70000 * 850^(-1) mod p (an enormous value, given explicitly
    below), it is not satisfied by 82, and it is satisfied by NO value <= 100, so
    creditRating does not lie in [0, 100]. -/
theorem C6_creditRating_not_truncating_division :
    multiDivisionRel 700 850 100
      2575087396686973555558400675912620598652748752990121687493906374891271587802 ∧
    ¬ multiDivisionRel 700 850 100 82 ∧
    (∀ r : Nat, r ≤ 100 → ¬ multiDivisionRel 700 850 100 r) := by
  refine ⟨by decide, by decide, ?_⟩
  intro r hr hrel
  obtain ⟨-, heq⟩ := hrel
  have hlt : r * 850 < fieldPrime := by
    calc r * 850 ≤ 100 * 850 := Nat.mul_le_mul_right 850 hr
    _ < fieldPrime := by decide
  have h70000 : (70000 : Nat) < fieldPrime := by decide
  rw [Nat.mod_eq_of_lt hlt, Nat.mod_eq_of_lt h70000] at heq
  omega

/-- Concrete instantiation of C6 at the candidate remainder 50: 50 is at most 100
    and does not satisfy the MultiDivision constraint for creditScore = 700. -/
theorem C6_creditRating_witness : ¬ multiDivisionRel 700 850 100 50 :=
  C6_creditRating_not_truncating_division.2.2 50 (by decide)

/-! ## MerkleTreeVerifier and BatchMerkleVerifier (merkle_tree.circom) -/

/-- One level of the Merkle chain: path index 0 means the running hash is the
    left child, otherwise it is the right child. -/
def merkleLevel (h : Nat → Nat → Nat) (cur sib idx : Nat) : Nat :=
  if idx = 0 then h cur sib else h sib cur

/-- The running hash from the leaf up a (sibling, pathIndex) path, as computed
    by MerkleTreeVerifier's loop. -/
def merkleChain (h : Nat → Nat → Nat) (leaf : Nat) : List (Nat × Nat) → Nat
  | [] => leaf
  | (sib, idx) :: rest => merkleChain h (merkleLevel h leaf sib idx) rest

/-- IsEqual template output: 1 iff the two inputs are equal. -/
def isEqualOut (a b : Nat) : Nat := if a = b then 1 else 0

/-- The output signal isValid of MerkleTreeVerifier:
    isValid <== (currentHash == root). -/
def merkleIsValid (h : Nat → Nat → Nat) (root leaf : Nat)
    (path : List (Nat × Nat)) : Nat :=
  isEqualOut (merkleChain h leaf path) root

/-- IsBinary template output: out <== in * (1 - in) over the BN254 field. -/
def isBinaryOut (x : Nat) : Nat :=
  (x * ((1 + fieldPrime - x % fieldPrime) % fieldPrime)) % fieldPrime

/-- The constraint set of MerkleTreeVerifier beyond the signal assignments:
    each IsBinary subcircuit asserts out === 0 internally, the enclosing
    template asserts binaryCheck.out === isValid for every level, and rootMatch
    asserts IsEqual(currentHash, root).out === isValid. -/
def merkleConstraints (h : Nat → Nat → Nat) (root leaf : Nat)
    (path : List (Nat × Nat)) : Prop :=
  (∀ p ∈ path, isBinaryOut p.2 = 0 ∧
    isBinaryOut p.2 = merkleIsValid h root leaf path) ∧
  isEqualOut (merkleChain h leaf path) root = merkleIsValid h root leaf path

instance (h : Nat → Nat → Nat) (root leaf : Nat) (path : List (Nat × Nat)) :
    Decidable (merkleConstraints h root leaf path) := by
  unfold merkleConstraints; exact inferInstance

/-- A concrete injective two-argument hash (Cantor pairing), standing in for
    Poseidon in concrete evaluations. -/
def pairHash (a b : Nat) : Nat := (a + b) * (a + b + 1) / 2 + b

/-- C2: the Merkle round-trip fails at the constraint level.  For ANY hash
    function and any non-empty path with binary direction bits on which the
    computed output isValid is 1 (in particular the honest path to the tree's
    root), the circuit's own constraints are violated: the template asserts
    binaryCheck.out === isValid while IsBinary asserts binaryCheck.out === 0,
    which forces isValid = 0.  An honest membership proof can therefore never
    be accepted by the constraint system as written. -/
theorem C2_merkle_honest_path_unsatisfiable (h : Nat → Nat → Nat)
    (root leaf : Nat) (path : List (Nat × Nat)) (hne : path ≠ [])
    (hbin : ∀ p ∈ path, p.2 = 0 ∨ p.2 = 1)
    (hvalid : merkleIsValid h root leaf path = 1) :
    ¬ merkleConstraints h root leaf path := by
  intro hc
  obtain ⟨hlevels, -⟩ := hc
  obtain ⟨⟨sib, idx⟩, hp⟩ := List.exists_mem_of_ne_nil path hne
  obtain ⟨hzero, hval⟩ := hlevels _ hp
  rw [hvalid] at hval
  have hb : isBinaryOut idx = 0 := by
    rcases hbin _ hp with h2 | h2
    · rw [show idx = 0 from h2]; decide
    · rw [show idx = 1 from h2]; decide
  rw [show (sib, idx).2 = idx from rfl, hb] at hval
  exact absurd hval (by decide)

/-- Concrete instantiation of C2 at the honest depth-1 proof with leaf 1,
    sibling 2, direction bit 0 and root pairHash 1 2: the computed isValid is 1,
    yet the constraints reject the witness. -/
theorem C2_merkle_witness :
    ¬ merkleConstraints pairHash (pairHash 1 2) 1 [(2, 0)] :=
  C2_merkle_honest_path_unsatisfiable pairHash (pairHash 1 2) 1 [(2, 0)]
    (by decide) (by decide) (by decide)

/-- One entry of a BatchMerkleVerifier instance: a root, a leaf hash, and the
    (sibling, pathIndex) path. -/
structure BatchEntry where
  root : Nat
  leaf : Nat
  path : List (Nat × Nat)

/-- The per-proof validity flags: validityFlags[i] <== verifiers[i].isValid. -/
def batchValidityFlags (h : Nat → Nat → Nat) (entries : List BatchEntry) :
    List Nat :=
  entries.map (fun e => merkleIsValid h e.root e.leaf e.path)

/-- allValid as assigned by BatchMerkleVerifier: it starts at 1, the first loop
    multiplies in every validity flag, and the second loop multiplies in the
    flags of index at least 1 once more.  All flags are 0 or 1, so the field
    reduction is a no-op and the running products stay in {0, 1}. -/
def batchAllValid (flags : List Nat) : Nat :=
  (flags.foldl (fun a f => a * f) 1) *
    ((flags.drop 1).foldl (fun a f => a * f) 1)

/-- The allValidCheck constraint of BatchMerkleVerifier (batchSize at least 1):
    the loop assigns allValidCheck.in[0] <== validityFlags[0] and
    allValidCheck.in[1] <== 1, and the template asserts
    allValidCheck.out === allValid. -/
def allValidCheckConstraint (flags : List Nat) : Prop :=
  isEqualOut (flags.headD 0) 1 = batchAllValid flags

instance (flags : List Nat) : Decidable (allValidCheckConstraint flags) := by
  unfold allValidCheckConstraint; exact inferInstance

/-- The full constraint set of BatchMerkleVerifier: every sub-verifier
    contributes its own MerkleTreeVerifier constraints, and the batch template
    adds the allValidCheck constraint on the validity flags. -/
def batchConstraints (h : Nat → Nat → Nat) (entries : List BatchEntry) : Prop :=
  (∀ e ∈ entries, merkleConstraints h e.root e.leaf e.path) ∧
  allValidCheckConstraint (batchValidityFlags h entries)

instance (h : Nat → Nat → Nat) (entries : List BatchEntry) :
    Decidable (batchConstraints h entries) := by
  unfold batchConstraints; exact inferInstance

/-- C4: the claimed batch behaviour is unrealisable in the circuit as written.
    At the 3-proof batch whose middle proof has a corrupted sibling (9 instead
    of 4), the computed signals do give validity flags [1, 0, 1] and
    allValid = 0 — the outputs the claim expects — but the constraint system
    rejects this witness: the valid sub-proofs violate their own
    binaryCheck.out === isValid constraints (the slip recorded under C2), and
    the batch's allValidCheck constraint demands IsEqual(flags[0], 1).out,
    which is 1, to equal allValid, which is 0.  The fully valid 3-proof batch
    is unsatisfiable as well, so allValid = 1 can never be produced for valid
    proofs either: no batch containing a valid sub-proof has a satisfying
    witness. -/
theorem C4_batch_scenario_unsatisfiable :
    batchValidityFlags pairHash
        [⟨pairHash 1 2, 1, [(2, 0)]⟩, ⟨pairHash 3 4, 3, [(9, 0)]⟩,
         ⟨pairHash 5 6, 5, [(6, 0)]⟩] = [1, 0, 1] ∧
    batchAllValid [1, 0, 1] = 0 ∧
    ¬ allValidCheckConstraint [1, 0, 1] ∧
    ¬ batchConstraints pairHash
        [⟨pairHash 1 2, 1, [(2, 0)]⟩, ⟨pairHash 3 4, 3, [(9, 0)]⟩,
         ⟨pairHash 5 6, 5, [(6, 0)]⟩] ∧
    ¬ batchConstraints pairHash
        [⟨pairHash 1 2, 1, [(2, 0)]⟩, ⟨pairHash 3 4, 3, [(4, 0)]⟩,
         ⟨pairHash 5 6, 5, [(6, 0)]⟩] := by
  decide

/-! ## Verifier.sol -/

/-- A stored verification result of Verifier.sol (the fields verifyProof writes
    that matter to idempotency; gasUsed/verifier/method are irrelevant to the
    record key and are elided). -/
structure VerificationRec where
  isValid : Bool
  proofId : Nat
  timestamp : Nat
  systemUsed : Nat

/-- The contract state of Verifier.sol touched by verifyProof, plus a ghost
    counter of how many cryptographic checks have been executed. -/
structure VerifierState where
  proofCounter : Nat
  results : Nat → Option VerificationRec
  checksPerformed : Nat

def initVerifierState : VerifierState := ⟨0, fun _ => none, 0⟩

/-- _generateVerificationId: keccak256(abi.encodePacked(proof, publicSignals,
    proofCounter, block.timestamp, msg.sender)), with abi.encodePacked modelled
    as word-list concatenation and keccak256 as the uninterpreted function h.
    Note that the circuit identifier (verification key name) is NOT hashed. -/
def generateVerificationId (h : List Nat → Nat) (proof signals : List Nat)
    (counter ts sender : Nat) : Nat :=
  h (proof ++ signals ++ [counter, ts, sender])

/-- _performMockVerification: keccak(proof, signals) mod 100 against a
    per-system threshold (Bulletproofs = 5 gets 85, STARK = 4 gets 92,
    every other system 90). -/
def mockVerification (h : List Nat → Nat) (proof signals : List Nat)
    (system : Nat) : Bool :=
  h (proof ++ signals) % 100 <
    (if system = 5 then 85 else if system = 4 then 92 else 90)

/-- verifyProof of Verifier.sol: _generateVerificationId increments proofCounter
    and hashes it into the id; the call reverts if that id already has a record,
    and otherwise runs the (mock) cryptographic check and stores the result
    under the id.  The onlyOperator / validProof / keyExists guards and the
    key-system match are taken as satisfied; they do not depend on the
    (proof, publicSignals, circuitId) tuple's history. -/
def verifierVerifyProof (h : List Nat → Nat) (s : VerifierState)
    (proof signals : List Nat) (system ts sender : Nat) :
    Except String (Nat × VerifierState) :=
  match s.results (generateVerificationId h proof signals (s.proofCounter + 1) ts sender) with
  | some _ => .error "Proof already verified"
  | none =>
    .ok (generateVerificationId h proof signals (s.proofCounter + 1) ts sender,
      { proofCounter := s.proofCounter + 1,
        results := fun k =>
          if k = generateVerificationId h proof signals (s.proofCounter + 1) ts sender
          then some ⟨mockVerification h proof signals system,
            generateVerificationId h proof signals (s.proofCounter + 1) ts sender,
            ts, system⟩
          else s.results k,
        checksPerformed := s.checksPerformed + 1 })

/-- Test harness: two successive verifyProof calls with the identical
    (proof, publicSignals, system) tuple from the initial state, returning both
    verification ids and the final state. -/
def verifyProofTwice (h : List Nat → Nat) (proof signals : List Nat)
    (system ts sender : Nat) : Except String (Nat × Nat × VerifierState) :=
  match verifierVerifyProof h initVerifierState proof signals system ts sender with
  | .error e => .error e
  | .ok (id1, s1) =>
    match verifierVerifyProof h s1 proof signals system ts sender with
    | .error e => .error e
    | .ok (id2, s2) => .ok (id1, id2, s2)

/-- A concrete stand-in for keccak256 on word lists, used to evaluate the
    contract model on explicit inputs. -/
def sumHash (l : List Nat) : Nat := l.foldl (fun a x => a + x) 0

/-- C3 counterexample: calling verifyProof twice with the identical
    (proof = [1,2], publicSignals = [3], system = 0) tuple yields verification
    ids 114 and 115 — two DIFFERENT keys for the same tuple, because the id
    hashes the incrementing proofCounter (and timestamp and sender, and no
    circuit id at all) — and the cryptographic check runs twice
    (checksPerformed = 2), storing two separate records instead of returning
    the first record unchanged. -/
theorem C3_counterexample_verify_not_idempotent :
    (verifyProofTwice sumHash [1, 2] [3] 0 100 7).map
        (fun r => (r.1, r.2.1, r.2.2.checksPerformed, r.2.2.proofCounter))
      = .ok (114, 115, 2, 2) := by
  rfl

/-- C3 amended: a verifyProof call that returns successfully got a FRESH id
    equal to the hash of proof, publicSignals, the incremented proofCounter,
    the timestamp and the sender; it performed the cryptographic check once
    more, stored the new record under that id, and bumped proofCounter — so a
    repeated identical tuple is re-verified under a new key, and a call whose
    id already has a record reverts instead of returning the stored record. -/
theorem C3_verifyProof_rekeys_and_rechecks (h : List Nat → Nat)
    (s : VerifierState) (proof signals : List Nat) (system ts sender id : Nat)
    (s2 : VerifierState)
    (hok : verifierVerifyProof h s proof signals system ts sender = .ok (id, s2)) :
    id = generateVerificationId h proof signals (s.proofCounter + 1) ts sender ∧
    s.results id = none ∧
    s2.proofCounter = s.proofCounter + 1 ∧
    s2.checksPerformed = s.checksPerformed + 1 ∧
    s2.results id = some ⟨mockVerification h proof signals system, id, ts, system⟩ := by
  unfold verifierVerifyProof at hok
  rcases hfind : s.results
      (generateVerificationId h proof signals (s.proofCounter + 1) ts sender) with
    _ | r
  · rw [hfind] at hok
    simp only [Except.ok.injEq, Prod.mk.injEq] at hok
    obtain ⟨hid, hs2⟩ := hok
    subst hid
    subst hs2
    exact ⟨rfl, hfind, rfl, rfl, by simp⟩
  · rw [hfind] at hok
    exact absurd hok (by simp)

/-- Concrete instantiation of the amended C3 theorem: the first call on the
    initial state with proof [1,2], signals [3], timestamp 100, sender 7 gets
    the fresh id 114 = sumHash([1,2] ++ [3] ++ [1,100,7]), finds no prior
    record, and stores a record while bumping both counters. -/
theorem C3_verifyProof_witness :
    114 = generateVerificationId sumHash [1, 2] [3] (initVerifierState.proofCounter + 1) 100 7 ∧
    initVerifierState.results 114 = none ∧
    (⟨1, fun k => if k = 114 then some ⟨true, 114, 100, 0⟩ else none, 1⟩ : VerifierState).proofCounter
      = initVerifierState.proofCounter + 1 ∧
    (⟨1, fun k => if k = 114 then some ⟨true, 114, 100, 0⟩ else none, 1⟩ : VerifierState).checksPerformed
      = initVerifierState.checksPerformed + 1 ∧
    (⟨1, fun k => if k = 114 then some ⟨true, 114, 100, 0⟩ else none, 1⟩ : VerifierState).results 114
      = some ⟨mockVerification sumHash [1, 2] [3] 0, 114, 100, 0⟩ :=
  C3_verifyProof_rekeys_and_rechecks sumHash initVerifierState [1, 2] [3] 0 100 7 114
    ⟨1, fun k => if k = 114 then some ⟨true, 114, 100, 0⟩ else none, 1⟩ rfl

/-! ## ZKCreditVerifier.sol -/

/-- A VerificationResult of ZKCreditVerifier.sol, stored in verifiedIdentities. -/
structure ZKVerificationRec where
  isValid : Bool
  verificationLevel : Nat
  timestamp : Nat
  verifier : Nat

/-- The verifiedIdentities mapping of ZKCreditVerifier.sol, keyed by proofId. -/
def ZKIdentities := Nat → Option ZKVerificationRec

def initZKIdentities : ZKIdentities := fun _ => none

/-- _validateZKProof: keccak256(abi.encodePacked(proof, publicSignals,
    verificationKeyName)) mod 100 < 90, with keccak as the uninterpreted h. -/
def validateZKProof (h : List Nat → Nat) (proof signals keyName : List Nat) :
    Bool :=
  h (proof ++ signals ++ keyName) % 100 < 90

/-- verifyProof of ZKCreditVerifier.sol: after the four require guards it runs
    the (mock) cryptographic check; ONLY when the check succeeds does it store
    a VerificationResult (with isValid = true) under proofId; on failure it
    merely returns false. -/
def zkVerifyProof (h : List Nat → Nat) (ids : ZKIdentities) (proofId : Nat)
    (proof signals keyName : List Nat) (level ts sender : Nat) :
    Except String (Bool × ZKIdentities) :=
  if proof = [] then .error "Invalid proof"
  else if signals = [] then .error "Invalid public signals"
  else if keyName = [] then .error "Invalid verification key name"
  else if 2 < level then .error "Invalid verification level"
  else if validateZKProof h proof signals keyName then
    .ok (true, fun k =>
      if k = proofId then some ⟨true, level, ts, sender⟩ else ids k)
  else
    .ok (false, ids)

/-- C8 counterexample: with a keccak value of 99 for this input (check fails,
    since 99 is not below the 90 threshold), verifyProof returns false and
    stores NO record at the proof's key — the verifiedIdentities entry for
    proofId 42 is still none — refuting the claim that a record with
    isValid = false is stored on cryptographic failure. -/
theorem C8_counterexample_no_record_on_failure :
    (zkVerifyProof (fun _ => 99) initZKIdentities 42 [1] [2] [3] 0 100 7).map
        (fun r => (r.1, r.2 42))
      = .ok (false, none) := by
  rfl

/-- C8 amended: a structurally well-formed call stores a record — always with
    isValid = true — only when the cryptographic check succeeds; when the check
    fails, verifyProof returns false and leaves verifiedIdentities entirely
    unchanged, so failed attempts are NOT recorded. -/
theorem C8_record_only_on_success (h : List Nat → Nat) (ids : ZKIdentities)
    (proofId : Nat) (proof signals keyName : List Nat) (level ts sender : Nat)
    (hp : proof ≠ []) (hs : signals ≠ []) (hk : keyName ≠ []) (hl : level ≤ 2) :
    (validateZKProof h proof signals keyName = false →
      zkVerifyProof h ids proofId proof signals keyName level ts sender
        = .ok (false, ids)) ∧
    (validateZKProof h proof signals keyName = true →
      zkVerifyProof h ids proofId proof signals keyName level ts sender
        = .ok (true, fun k =>
            if k = proofId then some ⟨true, level, ts, sender⟩ else ids k)) := by
  unfold zkVerifyProof
  rw [if_neg hp, if_neg hs, if_neg hk, if_neg (by omega : ¬ 2 < level)]
  constructor
  · intro hfail
    rw [hfail]
    rfl
  · intro hsucc
    rw [hsucc]
    rfl

/-- Concrete instantiation of C8's amended theorem at a failing check: keccak
    stand-in constant 99, proof [1], signals [2], key name [3]. -/
theorem C8_record_witness :
    zkVerifyProof (fun _ => 99) initZKIdentities 42 [1] [2] [3] 0 100 7
      = .ok (false, initZKIdentities) :=
  (C8_record_only_on_success (fun _ => 99) initZKIdentities 42 [1] [2] [3] 0 100 7
    (by decide) (by decide) (by decide) (by decide)).1 rfl

/-- A UserCreditInfo record of ZKCreditVerifier.sol. -/
structure UserCreditInfo where
  creditScoreTier : Nat
  verifiedIncomeMin : Nat
  verifiedIncomeMax : Nat
  verificationLevel : Nat
  lastUpdated : Nat
deriving DecidableEq

/-- Solidity mapping default: the zero-initialised record. -/
def initUserCreditInfo : UserCreditInfo := ⟨0, 0, 0, 0, 0⟩

/-- The arguments (and block timestamp) of one updateCreditAssessment call. -/
structure UpdateCall where
  user : Nat
  creditScoreTier : Nat
  incomeMin : Nat
  incomeMax : Nat
  verificationLevel : Nat
  ts : Nat

/-- updateCreditAssessment of ZKCreditVerifier.sol: requires a non-zero user,
    creditScoreTier in 1..5 and incomeMin <= incomeMax, then overwrites every
    field of the user's record and sets lastUpdated to block.timestamp. -/
def updateCreditAssessment (s : Nat → UserCreditInfo) (c : UpdateCall) :
    Except String (Nat → UserCreditInfo) :=
  if c.user = 0 then .error "Invalid user address"
  else if ¬ (1 ≤ c.creditScoreTier ∧ c.creditScoreTier ≤ 5) then
    .error "Invalid credit score tier"
  else if ¬ c.incomeMin ≤ c.incomeMax then .error "Invalid income range"
  else .ok (fun u =>
    if u = c.user then
      ⟨c.creditScoreTier, c.incomeMin, c.incomeMax, c.verificationLevel, c.ts⟩
    else s u)

/-- Applies a sequence of updateCreditAssessment transactions; a reverted call
    leaves the store unchanged. -/
def applyUpdates (s : Nat → UserCreditInfo) :
    List UpdateCall → (Nat → UserCreditInfo)
  | [] => s
  | c :: rest =>
    applyUpdates
      (match updateCreditAssessment s c with
       | .ok s2 => s2
       | .error _ => s) rest

/-- A record satisfying the claimed per-subject invariant. -/
def goodCreditInfo (r : UserCreditInfo) : Prop :=
  1 ≤ r.creditScoreTier ∧ r.creditScoreTier ≤ 5 ∧
    r.verifiedIncomeMin ≤ r.verifiedIncomeMax

theorem updateCreditAssessment_ok (s : Nat → UserCreditInfo) (c : UpdateCall)
    (s2 : Nat → UserCreditInfo) (h : updateCreditAssessment s c = .ok s2) :
    1 ≤ c.creditScoreTier ∧ c.creditScoreTier ≤ 5 ∧ c.incomeMin ≤ c.incomeMax ∧
    s2 = fun u =>
      if u = c.user then
        ⟨c.creditScoreTier, c.incomeMin, c.incomeMax, c.verificationLevel, c.ts⟩
      else s u := by
  unfold updateCreditAssessment at h
  split at h
  · exact absurd h (by simp)
  · split at h
    · exact absurd h (by simp)
    · split at h
      · exact absurd h (by simp)
      · rename_i h1 h2 h3
        push_neg at h2 h3
        simp only [Except.ok.injEq] at h
        exact ⟨h2.1, h2.2, h3, h.symm⟩

theorem applyUpdates_invariant (calls : List UpdateCall)
    (s : Nat → UserCreditInfo)
    (hs : ∀ u, s u = initUserCreditInfo ∨ goodCreditInfo (s u)) (u : Nat) :
    applyUpdates s calls u = initUserCreditInfo ∨
      goodCreditInfo (applyUpdates s calls u) := by
  induction calls generalizing s with
  | nil => exact hs u
  | cons c rest ih =>
    unfold applyUpdates
    rcases hu : updateCreditAssessment s c with e | s2
    · exact ih s hs
    · obtain ⟨h1, h2, h3, hs2⟩ := updateCreditAssessment_ok s c s2 hu
      refine ih s2 ?_
      intro v
      rw [hs2]
      by_cases hv : v = c.user
      · exact Or.inr (by simp [hv, goodCreditInfo, h1, h2, h3])
      · simpa [hv] using hs v

theorem applyUpdates_untouched (calls : List UpdateCall)
    (s : Nat → UserCreditInfo) (u : Nat) (hu : ∀ c ∈ calls, c.user ≠ u) :
    applyUpdates s calls u = s u := by
  induction calls generalizing s with
  | nil => rfl
  | cons c rest ih =>
    unfold applyUpdates
    rcases hc : updateCreditAssessment s c with e | s2
    · exact ih s (fun d hd => hu d (List.mem_cons_of_mem c hd))
    · obtain ⟨-, -, -, hs2⟩ := updateCreditAssessment_ok s c s2 hc
      rw [ih s2 (fun d hd => hu d (List.mem_cons_of_mem c hd)), hs2]
      simp [Ne.symm (hu c (List.mem_cons_self c rest))]

/-- C9: after any sequence of updateCreditAssessment transactions starting from
    the zero-initialised store, every subject's record is either still the
    untouched default or satisfies tier in 1..5 and
    verifiedIncomeMin <= verifiedIncomeMax; and every successful update
    OVERWRITES all five fields of its subject's record with the call's
    arguments — refreshing lastUpdated to the call's timestamp — while leaving
    every other subject unchanged. -/
theorem C9_credit_state_invariant_and_overwrite (calls : List UpdateCall)
    (u : Nat) (s : Nat → UserCreditInfo) (c : UpdateCall)
    (s2 : Nat → UserCreditInfo) (hok : updateCreditAssessment s c = .ok s2) :
    (applyUpdates (fun _ => initUserCreditInfo) calls u = initUserCreditInfo ∨
      goodCreditInfo (applyUpdates (fun _ => initUserCreditInfo) calls u)) ∧
    s2 c.user =
      ⟨c.creditScoreTier, c.incomeMin, c.incomeMax, c.verificationLevel, c.ts⟩ ∧
    (∀ v, v ≠ c.user → s2 v = s v) := by
  obtain ⟨-, -, -, hs2⟩ := updateCreditAssessment_ok s c s2 hok
  refine ⟨applyUpdates_invariant calls _ (fun _ => Or.inl rfl) u, ?_, ?_⟩
  · rw [hs2]; simp
  · intro v hv
    rw [hs2]
    simp [hv]

/-- Concrete instantiation of C9: one successful update for subject 7 with
    tier 3, income range [10, 20], level 1, timestamp 99, applied to the
    zero-initialised store. -/
theorem C9_credit_state_witness :
    (fun u => if u = 7 then
        (⟨3, 10, 20, 1, 99⟩ : UserCreditInfo) else initUserCreditInfo) 7
      = ⟨3, 10, 20, 1, 99⟩ :=
  (C9_credit_state_invariant_and_overwrite [] 7 (fun _ => initUserCreditInfo)
    ⟨7, 3, 10, 20, 1, 99⟩
    (fun u => if u = 7 then ⟨3, 10, 20, 1, 99⟩ else initUserCreditInfo)
    rfl).2.1

/-- getUserCreditInfo of ZKCreditVerifier.sol: requires lastUpdated > 0, then
    returns the stored record. -/
def getUserCreditInfo (s : Nat → UserCreditInfo) (u : Nat) :
    Except String UserCreditInfo :=
  if 0 < (s u).lastUpdated then .ok (s u)
  else .error "No credit information available"

/-- getCreditDecision of ZKCreditVerifier.sol: requires lastUpdated > 0, then
    computes (isApproved, maxAmount, interestRate) from the stored tier and
    income range (the requested amount is not used by the mock logic). -/
def getCreditDecision (s : Nat → UserCreditInfo) (u _requestedAmount : Nat) :
    Except String (Bool × Nat × Nat) :=
  if 0 < (s u).lastUpdated then
    if (s u).creditScoreTier ≤ 3 ∧
        1000 < (s u).verifiedIncomeMax - (s u).verifiedIncomeMin then
      .ok (true, 50000 * (6 - (s u).creditScoreTier),
        300 + (s u).creditScoreTier * 200)
    else
      .ok (false, 0, 0)
  else .error "No credit information available"

/-- C10: a user that no updateCreditAssessment call ever targeted still has the
    zero-initialised record (lastUpdated = 0), and for such a user both
    getUserCreditInfo and getCreditDecision revert with
    "No credit information available" instead of returning default values. -/
theorem C10_getters_revert_for_unknown_user (calls : List UpdateCall)
    (u amount : Nat) (hu : ∀ c ∈ calls, c.user ≠ u) :
    (applyUpdates (fun _ => initUserCreditInfo) calls u).lastUpdated = 0 ∧
    getUserCreditInfo (applyUpdates (fun _ => initUserCreditInfo) calls) u
      = .error "No credit information available" ∧
    getCreditDecision (applyUpdates (fun _ => initUserCreditInfo) calls) u amount
      = .error "No credit information available" := by
  have hinit : applyUpdates (fun _ => initUserCreditInfo) calls u
      = initUserCreditInfo :=
    applyUpdates_untouched calls _ u hu
  refine ⟨by rw [hinit]; rfl, ?_, ?_⟩
  · unfold getUserCreditInfo
    rw [hinit]
    rfl
  · unfold getCreditDecision
    rw [hinit]
    rfl

/-- Concrete instantiation of C10: after one update for subject 7, subject 8
    (never targeted) still gets the revert from both getters. -/
theorem C10_getters_witness :
    getUserCreditInfo
        (applyUpdates (fun _ => initUserCreditInfo) [⟨7, 3, 10, 20, 1, 99⟩]) 8
      = .error "No credit information available" :=
  (C10_getters_revert_for_unknown_user [⟨7, 3, 10, 20, 1, 99⟩] 8 5
    (by decide)).2.1

/-! ## CollateralVerifier (collateral_verifier.circom) -/

/-- Multiplicative inverse in the BN254 scalar field (via the extended gcd
    underlying the ZMod field structure). -/
def fieldInv (a : Nat) : Nat := ((a : ZMod fieldPrime)⁻¹).val

/-- Field division as performed by the circom witness calculator for a
    signal assignment x <== a / b: defined only when the divisor is non-zero
    in the field; division by zero has no defined result. -/
def fieldDiv (a b : Nat) : Option Nat :=
  if b % fieldPrime = 0 then none
  else some (a % fieldPrime * fieldInv b % fieldPrime)

/-- Proof-pipeline errors (spec section 7). -/
inductive ProofError where
  | WitnessUnsatisfiable
deriving DecidableEq

/-- The signals of one CollateralVerifier instance: public
    requiredCollateralValue, collateralRatio and minCollateralAge, the rest
    private. -/
structure CollateralInputs where
  requiredCollateralValue : Nat
  collateralRatio : Nat
  minCollateralAge : Nat
  actualCollateralValue : Nat
  collateralAge : Nat
  loanAmount : Nat
  hasLiens : Nat
  ownershipVerified : Nat
  assetHash : Nat
  assetType : Nat
  geographicRisk : Nat
  marketVolatility : Nat

/-- The circuit's outputs: collateralStatus and collateralScore. -/
structure CollateralOutputs where
  collateralStatus : Nat
  collateralScore : Nat
deriving DecidableEq

/-- MinComparator helper template: min(a, b) by the linear selection
    a * lt + b * (1 - lt) with lt = LessThan(a, b). -/
def minComparator (a b : Nat) : Nat :=
  a * lessThan a b + b * (1 - lessThan a b)

/-- Modelled from the spec: the circom/snarkjs witness calculator for
    CollateralVerifier is not part of src/ (the repository ships only the
    circuit source).  Following the spec (sections 4.3 and 7), witness
    construction evaluates the circuit's assignments in order and fails with
    WitnessUnsatisfiable when an assignment is undefined or a constraint
    fails; in particular the assignment
    collateralRatioCalculated <== actualCollateralValue * 100 / loanAmount is
    field division, undefined for loanAmount = 0, so such an attempt is
    rejected here, before any proof is attempted. -/
def collateralWitness (c : CollateralInputs) :
    Except ProofError CollateralOutputs :=
  match fieldDiv (c.actualCollateralValue * 100) c.loanAmount with
  | none => .error ProofError.WitnessUnsatisfiable
  | some ratioCalc =>
    if greaterEqThan ratioCalc c.collateralRatio = 1 ∧
        greaterEqThan c.collateralAge c.minCollateralAge = 1 ∧
        greaterEqThan c.actualCollateralValue c.requiredCollateralValue = 1 ∧
        isZeroOut c.hasLiens = 1 ∧
        c.ownershipVerified = 1 ∧
        lessEqThan c.geographicRisk 80 = 1 ∧
        lessEqThan c.marketVolatility 70 = 1 then
      match fieldDiv (minComparator ((ratioCalc - c.collateralRatio) * 2) 40 * 40) 100,
          fieldDiv (minComparator ((c.collateralAge - c.minCollateralAge) * 1) 20 * 20) 100,
          fieldDiv ((100 - c.geographicRisk) * 100) 100,
          fieldDiv ((100 - c.marketVolatility) * 100) 100 with
      | some wRatio, some wAge, some geoNorm, some volNorm =>
        match fieldDiv (geoNorm * 20) 100, fieldDiv (volNorm * 20) 100 with
        | some wGeo, some wVol =>
          .ok ⟨1, minComparator (wRatio + wAge + wGeo + wVol) 100⟩
        | _, _ => .error ProofError.WitnessUnsatisfiable
      | _, _, _, _ => .error ProofError.WitnessUnsatisfiable
    else .error ProofError.WitnessUnsatisfiable

/-- C7: every collateral proof attempt with loanAmount = 0 is rejected at
    witness-construction time with WitnessUnsatisfiable — the field division
    defining ratio = actualCollateralValue * 100 / loanAmount is undefined —
    so no witness is built and no proof is attempted. -/
theorem C7_loanAmount_zero_rejected (c : CollateralInputs)
    (hz : c.loanAmount = 0) :
    collateralWitness c = .error ProofError.WitnessUnsatisfiable := by
  unfold collateralWitness fieldDiv
  rw [hz]
  rfl

/-- Concrete instantiation of C7: a collateral attempt with value 500, age 60,
    loanAmount 0 is rejected with WitnessUnsatisfiable. -/
theorem C7_loanAmount_zero_witness :
    collateralWitness ⟨100, 150, 30, 500, 60, 0, 0, 1, 5, 1, 10, 10⟩
      = .error ProofError.WitnessUnsatisfiable :=
  C7_loanAmount_zero_rejected ⟨100, 150, 30, 500, 60, 0, 0, 1, 5, 1, 10, 10⟩ rfl
